import Mathlib

/-!
Verification of `django-simple-accounting` (`accounting/models.py`,
`accounting/exceptions.py`) against its natural-language specification.

The Python models are shallowly embedded: model rows become Lean structures,
`Decimal` amounts become `Rat`, Django querysets become lists of rows in an
explicit `DB` value, and Python exceptions become `Except PyErr` (or `Option`
where only one failure mode exists).  An attribute access on a name that no
model in `models.py` declares is embedded as `Except.error (.attributeError n)`,
mirroring Python's `AttributeError`.
-/

namespace DSAcct

/-- Python-level failure modes that the embedded methods can raise. -/
inductive PyErr where
  /-- Attribute lookup failed: the named attribute is declared by no model in
  `models.py` (or was accessed on `None`). -/
  | attributeError (attr : String)
  /-- Embeds `accounting.exceptions.MalformedAccountTree`. -/
  | malformedAccountTree
  /-- Embeds `MalformedPathString` raised on a bad path string. -/
  | malformedPath
  /-- Embeds `Account.DoesNotExist` raised by `Account.objects.get` with no match. -/
  | doesNotExist
  /-- Embeds `MultipleObjectsReturned` raised by `Account.objects.get` with several matches. -/
  | multipleObjectsReturned
  /-- Python `TypeError`, e.g. from calling a non-callable object. -/
  | typeError (msg : String)
  deriving DecidableEq, Repr

/-- The five base account types, `models.py` line 176:
`(ROOT, INCOME, EXPENSE, ASSET, LIABILITY) = range(0,5)`. -/
inductive BaseType where
  | ROOT
  | INCOME
  | EXPENSE
  | ASSET
  | LIABILITY
  deriving DecidableEq, Repr

/-- Embeds `AccountType` model (`models.py` lines 151-222): a display name plus one of
the five base types. -/
structure AccountType where
  name : String
  base_type : BaseType
  deriving DecidableEq, Repr

/-- Embeds `AccountType.is_stock` (`models.py` line 207):
`self.base_type in (AccountType.ASSET, AccountType.LIABILITY)`. -/
def AccountType.is_stock (t : AccountType) : Bool :=
  t.base_type == BaseType.ASSET || t.base_type == BaseType.LIABILITY

/-- Embeds `AccountType.is_flux` (`models.py` line 215):
`self.base_type in (AccountType.INCOME, AccountType.EXPENSE)`. -/
def AccountType.is_flux (t : AccountType) : Bool :=
  t.base_type == BaseType.INCOME || t.base_type == BaseType.EXPENSE

/-- One row of the `Account` model (`models.py` lines 316-473).  `system` and
`parent` are foreign keys held as row ids; `name` is kept as a character list
because the path computation concatenates name strings character by character. -/
structure AccountRow where
  id : Nat
  system : Nat
  parent : Option Nat
  name : List Char
  kind : AccountType
  placeholder : Bool
  deriving DecidableEq, Repr

/-- Embeds `Account.is_root` (`models.py` line 423): `not self.parent`. -/
def AccountRow.is_root (a : AccountRow) : Bool :=
  a.parent.isNone

/-- Embeds `Account.is_stock` (`models.py` line 374): delegates to `self.kind.is_stock`. -/
def AccountRow.is_stock (a : AccountRow) : Bool :=
  a.kind.is_stock

/-- Embeds `Account.is_flux` (`models.py` line 382): delegates to `self.kind.is_flux`. -/
def AccountRow.is_flux (a : AccountRow) : Bool :=
  a.kind.is_flux

/-- Embeds `CashFlow` model (`models.py` lines 476-513): an account together with a
signed `Decimal` amount (embedded as `Rat`, exact arithmetic). -/
structure CashFlow where
  account : AccountRow
  amount : Rat
  deriving DecidableEq

/-- Embeds `CashFlow.is_incoming` (`models.py` line 509): `self.amount < 0`. -/
def CashFlow.is_incoming (f : CashFlow) : Bool :=
  f.amount < 0

/-- Embeds `CashFlow.is_outgoing` (`models.py` line 513): `self.amount > 0`. -/
def CashFlow.is_outgoing (f : CashFlow) : Bool :=
  f.amount > 0

/-- Embeds `Trajectory` model (`models.py` lines 516-587): optional entry/exit point
accounts plus a target cash flow.  The foreign keys are embedded as the
referenced rows themselves, since the claims never mutate them. -/
structure Trajectory where
  entry_point : Option AccountRow
  exit_point : Option AccountRow
  target : CashFlow
  deriving DecidableEq

/-- Embeds `Trajectory.is_internal` (`models.py` line 573): `self.exit_point == None`. -/
def Trajectory.is_internal (t : Trajectory) : Bool :=
  t.exit_point.isNone

/-- Embeds `Trajectory.target_system` (`models.py` lines 575-580):
`return self.entry_point.system`.  When `entry_point` is `None`, the attribute
access `None.system` raises `AttributeError`. -/
def Trajectory.target_system (t : Trajectory) : Except PyErr Nat :=
  match t.entry_point with
  | none => .error (.attributeError "system")
  | some a => .ok a.system

/-- Embeds `Trajectory.amount` (`models.py` line 587): `- self.target.amount`. -/
def Trajectory.amount (t : Trajectory) : Rat :=
  - t.target.amount

/-- Embeds `Transaction` model (`models.py` lines 590-696): metadata, a source cash
flow and the many-to-many set of trajectories (`split_set`). -/
structure Transaction where
  date : Nat
  description : String
  issuer : Nat
  source : CashFlow
  split_set : List Trajectory
  kind : Option String
  deriving DecidableEq

/-- Embeds `Transaction.splits` (`models.py` line 664): `self.split_set.all()`. -/
def Transaction.splits (t : Transaction) : List Trajectory :=
  t.split_set

/-- Attribute access `self.components` on a `Transaction` (`models.py` line
674).  `Transaction` declares the fields `date`, `description`, `issuer`,
`source`, `split_set`, `kind`, the property `splits` and the reverse relation
`entry_set`; no model in `models.py` declares an attribute named `components`,
so the access raises `AttributeError`. -/
def Transaction.components (_ : Transaction) : Except PyErr (List Trajectory) :=
  .error (.attributeError "components")

/-- Embeds `Transaction.is_split` (`models.py` line 674):
`return len(self.components) > 1`. -/
def Transaction.is_split (t : Transaction) : Except PyErr Bool := do
  let cs ← t.components
  pure (cs.length > 1)

/-- Embeds `Transaction.is_internal` (`models.py` lines 683-687), embedding the loop
`internal = True; for trajectory in self.splits: if not trajectory.is_internal:
internal = False; return internal` as a left fold. -/
def Transaction.is_internal (t : Transaction) : Bool :=
  t.splits.foldl (fun internal traj => if !traj.is_internal then false else internal) true

/-- Embeds `Transaction.is_simple` (`models.py` line 696):
`return self.is_internal and not self.is_split`.  Python's `and` short-circuits,
so `is_split` (and its `AttributeError`) is only evaluated when `is_internal`
is `True`. -/
def Transaction.is_simple (t : Transaction) : Except PyErr Bool :=
  if t.is_internal then do
    let s ← t.is_split
    pure (!s)
  else
    pure false

/-- Embeds `Transaction.clean` (`models.py` lines 649-655): the body consists only of
TODO comments (among them "check that the law of conservation of money is
satisfied") and `pass`, so model-level validation always succeeds. -/
def Transaction.clean (_ : Transaction) : Except PyErr Unit :=
  .ok ()

/-- Embeds `Transaction.save` (`models.py` lines 657-660): runs `full_clean` (whose
model-level part is `clean`) and then persists via `super().save()`; the
persisted row is returned. -/
def Transaction.save (t : Transaction) : Except PyErr Transaction := do
  t.clean
  pure t

/-- Conservation-law sum as written in the spec:
`source.amount + Σ(split.amount for split in splits)`. -/
def conservationSum (t : Transaction) : Rat :=
  t.source.amount + (t.splits.map Trajectory.amount).sum

/-- Attribute access `self.incoming_transaction_set` on an `Account`
(`models.py` line 397).  The reverse relations declared on `Account` in
`models.py` are `flow_set` (from `CashFlow.account`), `entry_set` (from
`LedgerEntry.account`) and the default-named reverse relations of
`Account.parent`, `Trajectory.entry_point` and `Trajectory.exit_point`; no
field anywhere declares `related_name='incoming_transaction_set'`, so the
access raises `AttributeError`. -/
def AccountRow.incoming_transaction_set (_ : AccountRow) : Except PyErr (List Transaction) :=
  .error (.attributeError "incoming_transaction_set")

/-- Attribute access `self.outgoing_transaction_set` on an `Account`
(`models.py` line 398): as with `incoming_transaction_set`, no model declares
this related name, so the access raises `AttributeError`. -/
def AccountRow.outgoing_transaction_set (_ : AccountRow) : Except PyErr (List Transaction) :=
  .error (.attributeError "outgoing_transaction_set")

/-- Attribute access `transaction.net_amount` (`models.py` lines 402 and 404):
`Transaction` declares no attribute `net_amount` (only `Invoice` does), so the
access raises `AttributeError`. -/
def Transaction.net_amount (_ : Transaction) : Except PyErr Rat :=
  .error (.attributeError "net_amount")

/-- Embeds `Account.balance` (`models.py` lines 391-405): fetches the (undeclared)
`incoming_transaction_set` and `outgoing_transaction_set`, then adds and
subtracts `transaction.net_amount` over them. -/
def AccountRow.balance (a : AccountRow) : Except PyErr Rat := do
  let incoming ← a.incoming_transaction_set
  let outgoing ← a.outgoing_transaction_set
  let b ← incoming.foldlM (fun b tr => do pure (b + (← tr.net_amount))) (0 : Rat)
  let b ← outgoing.foldlM (fun b tr => do pure (b - (← tr.net_amount))) b
  pure b

/-- One row of the `LedgerEntry` model (`models.py` lines 699-761).  `pk` is
the model primary key (`None` until the row is first saved), `account` the
foreign key to the ledger's account, `entry_id` the per-ledger serial number
(`None` until assigned by `save`). -/
structure LedgerEntryRow where
  pk : Option Nat
  account : Nat
  entry_id : Option Nat
  amount : Rat
  deriving DecidableEq

/-- The database backing the querysets: all `Account` and `LedgerEntry` rows. -/
structure DB where
  accounts : List AccountRow
  entries : List LedgerEntryRow
  deriving DecidableEq

/-- Embeds `AccountSystem.accounts` (`models.py` line 300): `self.account_set.all()`,
the rows whose `system` foreign key is this system. -/
def DB.systemAccounts (db : DB) (sys : Nat) : List AccountRow :=
  db.accounts.filter (fun a => a.system == sys)

/-- Embeds `AccountSystem.root` (`models.py` lines 249-255): iterate over the system's
accounts and return the first one with `is_root`; if the loop finds none, raise
`MalformedAccountTree`. -/
def AccountSystem.root (db : DB) (sys : Nat) : Except PyErr AccountRow :=
  match (DB.systemAccounts db sys).find? AccountRow.is_root with
  | some a => .ok a
  | none => .error .malformedAccountTree

/-- Embeds `Account.ledger_entries` (`models.py` line 470): `self.entry_set.all()`
(the date ordering applied there does not matter for the claims below). -/
def AccountRow.ledger_entries (db : DB) (account : Nat) : List LedgerEntryRow :=
  db.entries.filter (fun e => e.account == account)

/-- Embeds `LedgerEntry.next_entry_id_for_ledger` (`models.py` lines 748-754):
`max([entry.id for entry in self.account.ledger_entries]) + 1`.  Note that it
reads `entry.id` — the model primary key — not `entry.entry_id`, and that
`max([])` on an account with no ledger entries raises `ValueError` (embedded as
`none`; rows already stored always carry a primary key, so the `mapM` only
reflects that read). -/
def LedgerEntry.next_entry_id_for_ledger (db : DB) (self : LedgerEntryRow) : Option Nat := do
  let existing := AccountRow.ledger_entries db self.account
  let ids ← existing.mapM (fun e => e.pk)
  match ids with
  | [] => none
  | i :: rest => some (rest.foldl Nat.max i + 1)

/-- Embeds `LedgerEntry.save` (`models.py` lines 756-761): on the first save (no
primary key yet) set `entry_id` from `next_entry_id_for_ledger`, then persist;
on later saves persist unchanged.  `none` models the `ValueError` escaping from
`next_entry_id_for_ledger`, in which case nothing is persisted. -/
def LedgerEntry.save (db : DB) (self : LedgerEntryRow) : Option LedgerEntryRow :=
  if self.pk = none then
    match LedgerEntry.next_entry_id_for_ledger db self with
    | none => none
    | some nid => some { self with entry_id := some nid }
  else
    some self

/-- The loop of `AccountSystem.total_amount` (`models.py` lines 309-314):
`for account in self.accounts: if account.is_stock: total_amount +=
account.balance`, with the exception from `balance` propagating. -/
def AccountSystem.totalAmountLoop : List AccountRow → Rat → Except PyErr Rat
  | [], total => .ok total
  | a :: rest, total =>
    if a.is_stock then
      match a.balance with
      | .error e => .error e
      | .ok b => AccountSystem.totalAmountLoop rest (total + b)
    else
      AccountSystem.totalAmountLoop rest total

/-- Embeds `AccountSystem.total_amount` (`models.py` lines 302-314). -/
def AccountSystem.total_amount (db : DB) (sys : Nat) : Except PyErr Rat :=
  AccountSystem.totalAmountLoop (DB.systemAccounts db sys) 0

/-- Unconditional accumulation of `balance` over a list of accounts: the
"algebraic sum of the balances" that the spec says `total_amount` computes over
the stock-like accounts. -/
def stockBalanceLoop : List AccountRow → Rat → Except PyErr Rat
  | [], total => .ok total
  | a :: rest, total =>
    match a.balance with
    | .error e => .error e
    | .ok b => stockBalanceLoop rest (total + b)

/-- Embeds `Account.path` (`models.py` lines 407-416).  For a root account the
property returns the bare `ACCOUNT_PATH_SEPARATOR`.  For a non-root account,
line 415 attempts the recursion `Account.path(self.parent)`; but `path` is a
`@property`, and `Account.path` accessed through the class is the property
object itself, so calling it raises `TypeError: 'property' object is not
callable` — the concatenation with `ACCOUNT_PATH_SEPARATOR + self.name` is
never reached. -/
def AccountRow.path (a : AccountRow) : Except PyErr (List Char) :=
  if a.is_root then
    .ok ['/']
  else
    .error (.typeError "property object is not callable")

/-- Split a character list on the `'/'` separator (so `"/a/b"` yields
`["", "a", "b"]`). -/
def splitSep : List Char → List (List Char)
  | [] => [[]]
  | c :: rest =>
    if c = '/' then
      [] :: splitSep rest
    else
      match splitSep rest with
      | [] => [[c]]
      | comp :: comps => (c :: comp) :: comps

/-- Strip leading and trailing whitespace from a character list. -/
def trimChars (cs : List Char) : List Char :=
  ((cs.dropWhile Char.isWhitespace).reverse.dropWhile Char.isWhitespace).reverse

/-- Embeds `Account.get_child` (`models.py` lines 432-439):
`Account.objects.get(parent=self, name=name)` — exactly one row or an error. -/
def AccountRow.get_child (db : DB) (a : AccountRow) (name : List Char) : Except PyErr AccountRow :=
  match db.accounts.filter (fun c => c.parent == some a.id && c.name == name) with
  | [c] => .ok c
  | [] => .error .doesNotExist
  | _ => .error .multipleObjectsReturned

/-- Traverse path components from an account downward via `get_child`. -/
def walkComponents (db : DB) : AccountRow → List (List Char) → Except PyErr AccountRow
  | acc, [] => .ok acc
  | acc, c :: cs =>
    match AccountRow.get_child db acc c with
    | .error e => .error e
    | .ok child => walkComponents db child cs

/-- Modelled from the spec: `accounting/utils.py`, whose
`get_account_from_path(path, root)` is called by `AccountSystem.__getitem__`
but is not among the sources (nor is `accounting/consts.py` with
`ACCOUNT_PATH_SEPARATOR`, which is `'/'` throughout the spec's examples).  Per
the spec, the whole string is whitespace-trimmed; the bare separator returns
the given root; otherwise the path must start with exactly one separator, must
not end with one, and components are separated by exactly one separator
occurrence — anything else is a malformed-path error; components are then
traversed from the root, failing at the first missing child. -/
def get_account_from_path (db : DB) (path : List Char) (root : AccountRow) : Except PyErr AccountRow :=
  let p := trimChars path
  if p = ['/'] then
    .ok root
  else
    match splitSep p with
    | [] :: comps =>
      if comps.isEmpty || comps.any List.isEmpty then
        .error .malformedPath
      else
        walkComponents db root comps
    | _ => .error .malformedPath

/-- Embeds `AccountSystem.__getitem__` (`models.py` lines 261-280):
`get_account_from_path(path, self.root)` — the root lookup runs first and its
`MalformedAccountTree` propagates. -/
def AccountSystem.getItem (db : DB) (sys : Nat) (path : List Char) : Except PyErr AccountRow :=
  match AccountSystem.root db sys with
  | .error e => .error e
  | .ok r => get_account_from_path db path r

/- ------------------------------------------------------------------ -/
/- Concrete sample data used by the closed theorems below.            -/
/- ------------------------------------------------------------------ -/

/-- The seeded `ASSET` account type (`models.py` line 229). -/
def assetType : AccountType :=
  ⟨"ASSET", BaseType.ASSET⟩

/-- The seeded `ROOT` account type (`models.py` line 226). -/
def rootType : AccountType :=
  ⟨"ROOT", BaseType.ROOT⟩

/-- A sample root account of system 0. -/
def rootRow : AccountRow :=
  ⟨0, 0, none, [], rootType, true⟩

/-- A sample asset account "wallet" under the root of system 0. -/
def walletRow : AccountRow :=
  ⟨1, 0, some 0, ['w', 'a', 'l', 'l', 'e', 't'], assetType, false⟩

/-- A sample asset account "cash" under the root of system 0. -/
def cashRow : AccountRow :=
  ⟨2, 0, some 0, ['c', 'a', 's', 'h'], assetType, false⟩

/-- A transaction violating the conservation law: the source flow has amount 1,
its single split has trajectory amount −5, so the flows sum to −4, not 0. -/
def badTransaction : Transaction :=
  ⟨0, "creates money from nothing", 7, ⟨walletRow, 1⟩, [⟨none, none, ⟨cashRow, 5⟩⟩], none⟩

/-- A simple internal one-split transaction (the shape the spec calls
"simple"). -/
def simpleTransaction : Transaction :=
  ⟨0, "wallet to cash", 7, ⟨walletRow, 100⟩, [⟨none, none, ⟨cashRow, 100⟩⟩], none⟩

/-- A well-formed account system: one root with two children, no ledger
entries yet. -/
def dbSimple : DB :=
  ⟨[rootRow, walletRow, cashRow], []⟩

/-- A malformed account system for system id 0: two parentless accounts. -/
def dbTwoRoots : DB :=
  ⟨[⟨0, 0, none, [], rootType, true⟩, ⟨1, 0, none, ['r'], rootType, true⟩], []⟩

/-- A ledger entry not yet saved (no primary key), for the wallet account. -/
def newWalletEntry : LedgerEntryRow :=
  ⟨none, 1, none, 100⟩

/-- The same system with one stored ledger entry on the cash account whose
primary key (7) differs from its per-ledger `entry_id` (1). -/
def dbWithEntry : DB :=
  ⟨[rootRow, walletRow, cashRow], [⟨some 7, 2, some 1, 50⟩]⟩

/-- A second, unsaved ledger entry for the cash account. -/
def newCashEntry : LedgerEntryRow :=
  ⟨none, 2, none, 25⟩

/-- An already-stored ledger entry for the cash account. -/
def storedCashEntry : LedgerEntryRow :=
  ⟨some 3, 2, some 1, 75⟩

end DSAcct

namespace DSAcct

/- ------------------------------------------------------------------ -/
/- Claim C8: stock-like / flux-like predicates on account types.      -/
/- ------------------------------------------------------------------ -/

/-- C8. For every `AccountType`, `is_stock` holds iff the base type is ASSET or
LIABILITY, `is_flux` holds iff it is INCOME or EXPENSE, for ROOT both are
false, and no account type is both stock-like and flux-like. -/
theorem accountType_stock_flux_partition (t : AccountType) :
    (t.is_stock = true ↔ (t.base_type = BaseType.ASSET ∨ t.base_type = BaseType.LIABILITY))
    ∧ (t.is_flux = true ↔ (t.base_type = BaseType.INCOME ∨ t.base_type = BaseType.EXPENSE))
    ∧ (t.base_type = BaseType.ROOT → t.is_stock = false ∧ t.is_flux = false)
    ∧ ¬(t.is_stock = true ∧ t.is_flux = true) := by
  obtain ⟨n, b⟩ := t
  cases b <;> simp [AccountType.is_stock, AccountType.is_flux]

/-- Witness for C8 at a concrete account type: the ROOT hypothesis of the third
conjunct is discharged at the seeded `ROOT` account type. -/
theorem accountType_stock_flux_partition_witness :
    (AccountType.mk "ROOT" BaseType.ROOT).is_stock = false
    ∧ (AccountType.mk "ROOT" BaseType.ROOT).is_flux = false :=
  (accountType_stock_flux_partition (AccountType.mk "ROOT" BaseType.ROOT)).2.2.1 rfl

/- ------------------------------------------------------------------ -/
/- Claim C10: cash-flow direction predicates.                         -/
/- ------------------------------------------------------------------ -/

/-- C10. For every `CashFlow`, `is_incoming` holds iff the amount is strictly
negative, `is_outgoing` holds iff it is strictly positive, the two are never
both true, and a zero-amount flow is neither. -/
theorem cashFlow_direction_sign (f : CashFlow) :
    (f.is_incoming = true ↔ f.amount < 0)
    ∧ (f.is_outgoing = true ↔ 0 < f.amount)
    ∧ ¬(f.is_incoming = true ∧ f.is_outgoing = true)
    ∧ (f.amount = 0 → f.is_incoming = false ∧ f.is_outgoing = false) := by
  refine ⟨?_, ?_, ?_, ?_⟩
  · simp [CashFlow.is_incoming]
  · simp [CashFlow.is_outgoing]
  · rintro ⟨hin, hout⟩
    simp only [CashFlow.is_incoming, CashFlow.is_outgoing, decide_eq_true_eq] at hin hout
    exact absurd (lt_trans hin hout) (lt_irrefl f.amount)
  · intro h
    simp [CashFlow.is_incoming, CashFlow.is_outgoing, h]

/-- Witness for C10: the zero-amount hypothesis discharged at a concrete
cash-flow of amount 0. -/
theorem cashFlow_direction_sign_witness :
    (CashFlow.mk (AccountRow.mk 0 0 none [] (AccountType.mk "ASSET" BaseType.ASSET) false) 0).is_incoming = false
    ∧ (CashFlow.mk (AccountRow.mk 0 0 none [] (AccountType.mk "ASSET" BaseType.ASSET) false) 0).is_outgoing = false :=
  (cashFlow_direction_sign
    (CashFlow.mk (AccountRow.mk 0 0 none [] (AccountType.mk "ASSET" BaseType.ASSET) false) 0)).2.2.2 rfl

/- ------------------------------------------------------------------ -/
/- Claim C9: target_system on internal trajectories.                  -/
/- ------------------------------------------------------------------ -/

/-- C9. `target_system` fails with `AttributeError` whenever `entry_point` is
unset (in particular for every internal trajectory, whose entry and exit points
are both unset), and returns the entry point's accounting system whenever
`entry_point` is set. -/
theorem trajectory_target_system_spec (t : Trajectory) :
    (t.entry_point = none → t.target_system = .error (.attributeError "system"))
    ∧ (∀ a, t.entry_point = some a → t.target_system = .ok a.system) := by
  constructor
  · intro h
    simp [Trajectory.target_system, h]
  · intro a h
    simp [Trajectory.target_system, h]

/- ------------------------------------------------------------------ -/
/- Claim C1: conservation of money on the save/validation path.       -/
/- ------------------------------------------------------------------ -/

/-- C1 (code bug). `Transaction.clean` consists only of TODO comments and
`pass`, so `save` succeeds for every transaction; in particular the concrete
`badTransaction`, whose conservation sum is −4 ≠ 0, is persisted unchanged. -/
theorem transaction_save_ignores_conservation :
    (∀ t : Transaction, t.save = .ok t)
    ∧ badTransaction.save = .ok badTransaction
    ∧ conservationSum badTransaction = -4 := by
  have h : conservationSum badTransaction = -4 := by
    norm_num [conservationSum, badTransaction, Transaction.splits, Trajectory.amount]
  exact ⟨fun t => rfl, rfl, h⟩

/- ------------------------------------------------------------------ -/
/- Claim C4: Account.balance.                                         -/
/- ------------------------------------------------------------------ -/

/-- C4 (code bug). For every account, evaluating `balance` raises
`AttributeError` on its very first step, because no model declares the related
name `incoming_transaction_set`; it never computes any sum over ledger
entries. -/
theorem account_balance_raises_attributeError (a : AccountRow) :
    a.balance = .error (.attributeError "incoming_transaction_set") := rfl

/- ------------------------------------------------------------------ -/
/- Claim C7: is_split / is_internal / is_simple.                      -/
/- ------------------------------------------------------------------ -/

/-- The loop of `Transaction.is_internal` computes the conjunction of
`is_internal` over the list, relative to the initial accumulator. -/
theorem foldl_is_internal (l : List Trajectory) (acc : Bool) :
    List.foldl (fun internal traj => if !traj.is_internal then false else internal) acc l
      = (acc && l.all Trajectory.is_internal) := by
  induction l generalizing acc with
  | nil => simp
  | cons a l ih =>
    rw [List.foldl_cons, ih, List.all_cons]
    cases h : a.is_internal <;> simp [h, Bool.and_assoc]

/-- C7 (code bug). `is_internal` does hold iff every trajectory has no exit
point, but `is_split` evaluates `self.components`, an attribute no model
declares, so it raises `AttributeError` for every transaction — it never
compares the trajectory count with 1 — and `is_simple` on an internal
transaction (here the concrete `simpleTransaction`) raises the same error. -/
theorem transaction_is_split_raises_attributeError :
    (∀ t : Transaction, t.is_split = .error (.attributeError "components"))
    ∧ (∀ t : Transaction, t.is_internal = t.splits.all Trajectory.is_internal)
    ∧ simpleTransaction.is_internal = true
    ∧ simpleTransaction.is_simple = .error (.attributeError "components") := by
  refine ⟨fun t => rfl, fun t => ?_, by decide, rfl⟩
  rw [Transaction.is_internal, foldl_is_internal, Bool.true_and]

/-- Witness for C9 at a concrete internal trajectory (entry and exit points
both unset): its `target_system` raises `AttributeError`. -/
theorem trajectory_target_system_spec_witness :
    (Trajectory.mk none none
      (CashFlow.mk (AccountRow.mk 1 0 (some 0) (['w', 'a', 'l', 'l', 'e', 't'])
        (AccountType.mk "ASSET" BaseType.ASSET) false) 10)).target_system
      = .error (.attributeError "system") :=
  (trajectory_target_system_spec
    (Trajectory.mk none none
      (CashFlow.mk (AccountRow.mk 1 0 (some 0) (['w', 'a', 'l', 'l', 'e', 't'])
        (AccountType.mk "ASSET" BaseType.ASSET) false) 10))).1 rfl

/- ------------------------------------------------------------------ -/
/- Claim C2: per-ledger entry id assignment.                          -/
/- ------------------------------------------------------------------ -/

/-- C2 (code bug). On an account with no ledger entries,
`next_entry_id_for_ledger` raises `ValueError` (`max([])`) instead of
returning 1, and the first save of such an entry persists nothing; on an
account whose single entry has primary key 7 but `entry_id` 1, it returns 8
(max primary key + 1) instead of 2 (max `entry_id` + 1).  Saving an entry that
already has a primary key leaves it (and its `entry_id`) unchanged. -/
theorem next_entry_id_pk_bug :
    LedgerEntry.next_entry_id_for_ledger dbSimple newWalletEntry = none
    ∧ LedgerEntry.save dbSimple newWalletEntry = none
    ∧ LedgerEntry.next_entry_id_for_ledger dbWithEntry newCashEntry = some 8
    ∧ (AccountRow.ledger_entries dbWithEntry 2).map (fun e => e.entry_id) = [some 1]
    ∧ LedgerEntry.save dbWithEntry storedCashEntry = some storedCashEntry :=
  ⟨rfl, rfl, rfl, rfl, rfl⟩

/- ------------------------------------------------------------------ -/
/- Claim C6: root lookup.                                             -/
/- ------------------------------------------------------------------ -/

/-- C6 counterexample. A system with two parentless accounts: the root lookup
returns the first of them instead of failing with `MalformedAccountTree`, so
the "fails when multiple roots exist" half of the claim is false. -/
theorem root_lookup_counterexample :
    AccountSystem.root dbTwoRoots 0 = .ok ⟨0, 0, none, [], rootType, true⟩
    ∧ ((DB.systemAccounts dbTwoRoots 0).filter (fun a => a.parent.isNone)).length = 2 :=
  ⟨rfl, rfl⟩

/-- C6 amended. The root lookup fails with `MalformedAccountTree` when the
system has no parentless account; when the system has exactly one parentless
account it returns that unique account.  (When several parentless accounts
exist it returns the first in iteration order rather than failing.) -/
theorem root_lookup_characterization (db : DB) (sys : Nat) :
    ((∀ a ∈ DB.systemAccounts db sys, a.parent ≠ none) →
      AccountSystem.root db sys = .error .malformedAccountTree)
    ∧ (∀ a, a ∈ DB.systemAccounts db sys → a.parent = none →
        (∀ b ∈ DB.systemAccounts db sys, b.parent = none → b = a) →
        AccountSystem.root db sys = .ok a) := by
  constructor
  · intro h
    have hnone : (DB.systemAccounts db sys).find? AccountRow.is_root = none := by
      rw [List.find?_eq_none]
      intro x hx
      simp only [AccountRow.is_root, Option.isNone_iff_eq_none]
      exact h x hx
    simp [AccountSystem.root, hnone]
  · intro a ha hpar huniq
    cases hf : (DB.systemAccounts db sys).find? AccountRow.is_root with
    | none =>
      exfalso
      have := List.find?_eq_none.mp hf a ha
      simp [AccountRow.is_root, hpar] at this
    | some b =>
      have hb : AccountRow.is_root b := List.find?_some hf
      have hmemb : b ∈ DB.systemAccounts db sys := List.mem_of_find?_eq_some hf
      have hbp : b.parent = none := by
        simpa [AccountRow.is_root, Option.isNone_iff_eq_none] using hb
      have hba : b = a := huniq b hmemb hbp
      simp [AccountSystem.root, hf, hba]

/-- Witness for C6: applying the amended characterization at the concrete
single-root system discharges its hypotheses and yields the unique root. -/
theorem root_lookup_characterization_witness :
    AccountSystem.root dbSimple 0 = .ok rootRow :=
  (root_lookup_characterization dbSimple 0).2 rootRow (by decide) rfl (by decide)

/- ------------------------------------------------------------------ -/
/- Claim C5: total_amount over stock-like accounts.                   -/
/- ------------------------------------------------------------------ -/

/-- The `total_amount` loop skips every non-stock account: it equals the plain
balance accumulation over the stock-like accounts only. -/
theorem totalAmountLoop_filter (l : List AccountRow) (total : Rat) :
    AccountSystem.totalAmountLoop l total
      = stockBalanceLoop (l.filter AccountRow.is_stock) total := by
  induction l generalizing total with
  | nil => rfl
  | cons a l ih =>
    cases h : a.is_stock with
    | true =>
      have hf : (a :: l).filter AccountRow.is_stock = a :: l.filter AccountRow.is_stock := by
        simp [List.filter_cons, h]
      rw [hf]
      simp only [AccountSystem.totalAmountLoop, stockBalanceLoop, h, if_true]
      rfl
    | false =>
      have hf : (a :: l).filter AccountRow.is_stock = l.filter AccountRow.is_stock := by
        simp [List.filter_cons, h]
      rw [hf]
      simp only [AccountSystem.totalAmountLoop, h, if_false, Bool.false_eq_true]
      exact ih total

/-- C5. `total_amount` of a system is the algebraic accumulation of `balance`
over exactly the stock-like accounts of the system (in the code's exception
semantics — `balance` itself raises, see the C4 theorem); flux-like accounts
and the root are filtered out and contribute nothing. -/
theorem total_amount_sums_stock_balances (db : DB) (sys : Nat) :
    AccountSystem.total_amount db sys
      = stockBalanceLoop ((DB.systemAccounts db sys).filter AccountRow.is_stock) 0 :=
  totalAmountLoop_filter (DB.systemAccounts db sys) 0

/- ------------------------------------------------------------------ -/
/- Claim C3: path construction and path round-trip.                   -/
/- ------------------------------------------------------------------ -/

/-- The bare separator returns the root the parser was given. -/
theorem lookup_bare_sep (db : DB) (root : AccountRow) :
    get_account_from_path db ['/'] root = .ok root := rfl

/-- C3 amended. The path of the root account is the bare separator, and the
round-trip holds for the account the root lookup returns:
`system[root.path] == root`.  But for every non-root account the claim fails
before any lookup can happen: evaluating `path` raises `TypeError`, because
line 415 calls the class-level property object `Account.path` instead of
reading `self.parent.path`, so the path of a non-root account is never
computed as parent path + separator + name and `system[a.path]` cannot return
`a`. -/
theorem account_path_roundtrip_amended (db : DB) (sys : Nat) (a : AccountRow) :
    (a.parent = none → a.path = .ok ['/'])
    ∧ (a.parent ≠ none → a.path = .error (.typeError "property object is not callable"))
    ∧ (AccountSystem.root db sys = .ok a → AccountSystem.getItem db sys ['/'] = .ok a) := by
  refine ⟨?_, ?_, ?_⟩
  · intro h
    simp [AccountRow.path, AccountRow.is_root, h]
  · intro h
    cases hp : a.parent with
    | none => exact absurd hp h
    | some pid => simp [AccountRow.path, AccountRow.is_root, hp]
  · intro h
    simp [AccountSystem.getItem, h, lookup_bare_sep]

/-- Witness for C3's amended theorem at the concrete system: evaluating the
wallet account's path raises `TypeError`, while the root path round-trips. -/
theorem account_path_roundtrip_amended_witness :
    walletRow.path = .error (.typeError "property object is not callable")
    ∧ AccountSystem.getItem dbSimple 0 ['/'] = .ok rootRow := by
  constructor
  · exact (account_path_roundtrip_amended dbSimple 0 walletRow).2.1 (by decide)
  · exact (account_path_roundtrip_amended dbSimple 0 rootRow).2.2 rfl

/-- C3 counterexample. The wallet account is a non-root member of the concrete
system, and evaluating its `path` raises `TypeError` (the class-level property
object is called at `models.py` line 415), so `system[walletRow.path]` cannot
return the account — and the claimed non-root path recursion never takes
place. -/
theorem account_path_roundtrip_counterexample :
    walletRow ∈ dbSimple.accounts
    ∧ walletRow.parent = some 0
    ∧ walletRow.path = .error (.typeError "property object is not callable") := by
  refine ⟨by decide, rfl, rfl⟩

end DSAcct
